import Mathlib

/-!
# Verification of the Arabic letter OCR application (`src/app.py`)

A shallow embedding of the application's core logic:

* the letter-to-audio resolver `get_audio_filename` with its mapping table
  `mapping_base` (lines 23-58 of `app.py`);
* the recognition request adapter `identify_arabic_letter_from_bytes`
  (lines 63-113), with the external classification service modelled as an
  oracle parameter and the outbound-call count made explicit;
* the presentation layer's error test `identified_letter.startswith('❌')`
  (lines 187-188).

Python-level behaviours are modelled explicitly: `str.strip` as removal of
leading and trailing whitespace characters, `dict` literals as
insertion-ordered association lists where a later binding overrides an
earlier one, string truthiness as non-emptiness, `os.path.join` with POSIX
semantics, and `os.path.exists` as a read of an abstract file-system state.
-/

/-- Model of a Python whitespace character, used by `str.strip`
(restricted to the ASCII whitespace characters, which cover every
input the claims exercise). -/
def pyWhitespace (c : Char) : Bool := c.isWhitespace

/-- The character-list core of `str.strip`: remove leading and trailing
whitespace. -/
def stripChars (l : List Char) : List Char :=
  (l.dropWhile pyWhitespace).rdropWhile pyWhitespace

/-- Model of Python's `str.strip()` with no argument: trim surrounding
whitespace. -/
def pyStrip (s : String) : String := String.mk (stripChars s.data)

/-- Model of Python's `str.startswith`: the pattern is a prefix of the
string. -/
def pyStartswith (s pre : String) : Bool := pre.data.isPrefixOf s.data

/-- Model of Python's `str.endswith`: the pattern is a suffix of the
string. -/
def pyEndswith (s suf : String) : Bool := suf.data.isSuffixOf s.data

/-- Truthiness of a Python `Optional[str]`: `None` and the empty string
are falsy.  Models the `if not API_KEY:` test of `app.py` line 67. -/
def pyFalsy : Option String → Bool
  | none => true
  | some s => s = ""

/-- A Python `dict` built from an ordered list of key-value bindings:
each binding is inserted in order, a later binding for the same key
overriding an earlier one.  `dictGet l k` is `dict(l).get(k)`. -/
def dictGet : List (String × String) → String → Option String
  | [], _ => none
  | p :: rest, k =>
    match dictGet rest k with
    | some v => some v
    | none => if k = p.1 then some p.2 else none

/-- Model of POSIX `os.path.join` on two components (the only form
`app.py` uses, at line 52). -/
def os_path_join (a b : String) : String :=
  if pyStartswith b "/" then b
  else if a = "" then a ++ b
  else if pyEndswith a "/" then a ++ b
  else a ++ "/" ++ b

/-- `AUDIO_FOLDER` of `app.py` line 18. -/
def AUDIO_FOLDER : String := "sounds"

/-- The main block of the `mapping_base` dictionary literal of `app.py`
lines 34-42, in source order. -/
def mapping_main_entries : List (String × String) := [
  ("ع", "ain"), ("ا", "alif"), ("أ", "alif_hamza_foq"), ("إ", "alif_hamza_taht"),
  ("آ", "alif_madda"), ("ى", "alif_maqsura"), ("ب", "baa"), ("ض", "daad"),
  ("د", "daal"), ("ذ", "dhaal"), ("ف", "faa"), ("غ", "ghain"),
  ("ح", "haa"), ("ه", "hah"), ("ء", "hamza"), ("ج", "jeem"),
  ("ك", "kaaf"), ("خ", "khaa"), ("ل", "laam"), ("م", "meem"),
  ("ن", "noon"), ("ق", "qaaf"), ("ر", "raa"), ("ص", "saad"),
  ("س", "seen"), ("ش", "sheen"), ("ط", "taat"), ("ة", "taa_marbuta"),
  ("ت", "taa"), ("ث", "thaa"), ("و", "waw"), ("ؤ", "waw_hamza"),
  ("ي", "yaa"), ("ئ", "yaa_hamza"), ("ظ", "zaat"), ("ز", "zay")
]

/-- The "Robust matching for common hamza/yaa forms" block of the
`mapping_base` dictionary literal, `app.py` line 45, in source order. -/
def mapping_robust_entries : List (String × String) := [
  ("أ", "alif_hamza_foq"), ("إ", "alif_hamza_taht"), ("ي", "yaa"), ("ئ", "yaa_hamza")
]

/-- All bindings of the `mapping_base` dictionary literal of `app.py`
lines 33-46, in source order: the main block followed by the robust
block. -/
def mapping_base_entries : List (String × String) :=
  mapping_main_entries ++ mapping_robust_entries

/-- The `mapping_base` dictionary of `app.py` lines 33-46, as a lookup
function with Python `dict`-literal semantics. -/
def mapping_base (k : String) : Option String := dictGet mapping_base_entries k

/-- An abstract file-system state: which paths exist.  `os.path.exists`
reads it and nothing in the resolver writes it. -/
def FS := String → Bool

/-- Model of `os.path.exists` as a state-passing operation on the
file-system state: it returns whether the path exists and leaves the
state unchanged. -/
def os_path_exists (fs : FS) (p : String) : Bool × FS := (fs p, fs)

/-- `get_audio_filename` of `app.py` lines 23-58, parameterised by the
bindings of its mapping table (the source inlines `mapping_base_entries`;
the parameter lets the dead robust block be compared against the main
block).  Mirrors the source line by line: strip the letter, look it up,
test the base name's truthiness, append `'.mp4'`, join with
`AUDIO_FOLDER`, check existence, otherwise return `None`. -/
def get_audio_filename_with (entries : List (String × String)) (fs : FS)
    (letter : String) : Option String :=
  let normalized_letter := pyStrip letter
  let base_name := dictGet entries normalized_letter
  match base_name with
  | some b =>
    if b ≠ "" then
      let filename := b ++ ".mp4"
      let full_path := os_path_join AUDIO_FOLDER filename
      if fs full_path then some full_path else none
    else none
  | none => none

/-- `get_audio_filename` of `app.py` lines 23-58, with its own
`mapping_base` table. -/
def get_audio_filename (fs : FS) (letter : String) : Option String :=
  get_audio_filename_with mapping_base_entries fs letter

/-- The state-passing form of `get_audio_filename`: every file-system
interaction of the source (the single `os.path.exists` call at line 55)
goes through `os_path_exists`, and the final file-system state is
returned alongside the result. -/
def get_audio_filename_run (fs : FS) (letter : String) : Option String × FS :=
  let normalized_letter := pyStrip letter
  let base_name := dictGet mapping_base_entries normalized_letter
  match base_name with
  | some b =>
    if b ≠ "" then
      let filename := b ++ ".mp4"
      let full_path := os_path_join AUDIO_FOLDER filename
      let check := os_path_exists fs full_path
      if check.1 then (some full_path, check.2) else (none, check.2)
    else (none, fs)
  | none => (none, fs)

/-- Outcome of the body of the `try` block of `app.py` lines 71-109 as
seen from outside: either some exception was raised (during client
construction, the outbound call, or response handling), or the call
completed and `response.text` held this `Optional[str]` value. -/
inductive ServiceOutcome where
  | raised (msg : String)
  | returned (text : Option String)
deriving DecidableEq

/-- `identify_arabic_letter_from_bytes` of `app.py` lines 63-113.  The
`api_key` parameter is the process-wide `API_KEY` (`os.getenv` result,
so `Option String`); `svc` is the external classification capability,
consulted at most once per call.  The second component of the result
counts consultations of `svc`: `0` on the missing-credential path,
`1` whenever the credential test passes.  On `response.text = None`
the source's `.strip()` raises `AttributeError`, which the bare
`except` catches, so that case also yields the processing-failure
sentinel. -/
def identify_arabic_letter_from_bytes (api_key : Option String)
    (svc : List Nat → String → ServiceOutcome)
    (image_bytes : List Nat) (mime_type : String) : String × Nat :=
  if pyFalsy api_key then ("❌ فشل الاتصال", 0)
  else
    match svc image_bytes mime_type with
    | .raised _ => ("❌ فشل المعالجة", 1)
    | .returned none => ("❌ فشل المعالجة", 1)
    | .returned (some t) => (pyStrip t, 1)

/-- The presentation layer's error test of `app.py` line 187:
`identified_letter and identified_letter.startswith('❌')`, with Python
string truthiness made explicit. -/
def is_error_display (s : String) : Bool :=
  decide (s ≠ "") && pyStartswith s "❌"

/-! ## Helper lemmas -/

/-- A stripped character list has no leading whitespace, so stripping is
idempotent at the character level. -/
theorem stripChars_idem (l : List Char) : stripChars (stripChars l) = stripChars l := by
  unfold stripChars
  have h1 : (List.rdropWhile pyWhitespace (List.dropWhile pyWhitespace l)).dropWhile pyWhitespace
      = List.rdropWhile pyWhitespace (List.dropWhile pyWhitespace l) := by
    cases hr : List.rdropWhile pyWhitespace (List.dropWhile pyWhitespace l) with
    | nil => simp
    | cons a r =>
      rw [List.dropWhile_cons]
      obtain ⟨t, ht⟩ := List.rdropWhile_prefix pyWhitespace (List.dropWhile pyWhitespace l)
      have hd : List.dropWhile pyWhitespace l = a :: (r ++ t) := by
        rw [← ht, hr]; rfl
      have hne : List.dropWhile pyWhitespace l ≠ [] := by
        rw [hd]; exact List.cons_ne_nil _ _
      have hna := List.head_dropWhile_not pyWhitespace l hne
      have hha : (List.dropWhile pyWhitespace l).head hne = a := by
        simp only [hd, List.head_cons]
      rw [hha] at hna
      simp [hna]
  rw [h1, List.rdropWhile_idempotent]

/-- `str.strip` is idempotent. -/
theorem pyStrip_idem (s : String) : pyStrip (pyStrip s) = pyStrip s := by
  unfold pyStrip
  rw [show (String.mk (stripChars s.data)).data = stripChars s.data from rfl, stripChars_idem]

/-- Looking a key up in a dictionary built from concatenated binding
blocks: the later block takes precedence. -/
theorem dictGet_append (l1 l2 : List (String × String)) (k : String) :
    dictGet (l1 ++ l2) k =
      match dictGet l2 k with
      | some v => some v
      | none => dictGet l1 k := by
  induction l1 with
  | nil =>
    cases h2 : dictGet l2 k <;> simp [dictGet, h2]
  | cons p t ih =>
    show (match dictGet (t ++ l2) k with
      | some v => some v
      | none => if k = p.1 then some p.2 else none) = _
    rw [ih]
    cases h2 : dictGet l2 k <;> rfl

/-- A successful dictionary lookup returns the value of some binding of
the list. -/
theorem dictGet_mem (l : List (String × String)) (k b : String)
    (hb : dictGet l k = some b) : (k, b) ∈ l := by
  induction l with
  | nil => simp [dictGet] at hb
  | cons p t ih =>
    rw [show dictGet (p :: t) k = (match dictGet t k with
      | some v => some v
      | none => if k = p.1 then some p.2 else none) from rfl] at hb
    cases h2 : dictGet t k with
    | some v =>
      rw [h2] at hb
      exact List.mem_cons_of_mem _ (ih (by rw [h2, Option.some_inj.mp hb]))
    | none =>
      rw [h2] at hb
      by_cases hk : k = p.1
      · rw [if_pos hk] at hb
        have : p = (k, b) := by
          cases p with
          | mk k0 v0 => simp_all
        rw [this]
        exact List.mem_cons_self _ _
      · rw [if_neg hk] at hb
        exact absurd hb (by simp)

/-- Every value a lookup in the `mapping_base` table can return is a
nonempty base file name (so the Python truthiness test on `base_name`
passes on every hit). -/
theorem mapping_base_value_ne_empty (k b : String)
    (hb : dictGet mapping_base_entries k = some b) : b ≠ "" := by
  have hm := dictGet_mem _ _ _ hb
  have hall : ∀ p ∈ mapping_base_entries, p.2 ≠ "" := by decide
  exact hall _ hm

/-- A concrete file-system state for witnesses: exactly the two assets
of the spec's end-to-end scenarios are present. -/
def fs_demo : FS := fun p => p == "sounds/baa.mp4" || p == "sounds/ain.mp4"

/-- A concrete external capability that raises, for witnesses. -/
def svc_raise : List Nat → String → ServiceOutcome :=
  fun _ _ => .raised "network unreachable"

/-- A concrete external capability returning fixed text, for witnesses. -/
def svc_text (t : String) : List Nat → String → ServiceOutcome :=
  fun _ _ => .returned (some t)

/-! ## Claim theorems -/

/-- C1: if the service credential `API_KEY` is unset (more generally,
Python-falsy, which covers `None` from `os.getenv`), then for every
image-bytes and mime-type input the adapter returns the
missing-credential sentinel `"❌ فشل الاتصال"` and the external
classification capability is consulted zero times. -/
theorem missing_credential_short_circuits (api_key : Option String)
    (svc : List Nat → String → ServiceOutcome)
    (image_bytes : List Nat) (mime_type : String)
    (h : pyFalsy api_key = true) :
    identify_arabic_letter_from_bytes api_key svc image_bytes mime_type
      = ("❌ فشل الاتصال", 0) := by
  simp [identify_arabic_letter_from_bytes, h]

theorem missing_credential_short_circuits_witness :
    pyFalsy none = true ∧
    identify_arabic_letter_from_bytes none svc_raise [] "image/png"
      = ("❌ فشل الاتصال", 0) :=
  ⟨rfl, missing_credential_short_circuits none svc_raise [] "image/png" rfl⟩

/-- C2: whenever the credential test passes and the outbound call (any
part of the `try` block) raises, the adapter catches the exception and
returns the processing-failure sentinel `"❌ فشل المعالجة"`; the
embedding is a total function, so no raised fault propagates to the
caller. -/
theorem exception_caught_at_adapter (api_key : Option String)
    (svc : List Nat → String → ServiceOutcome)
    (image_bytes : List Nat) (mime_type msg : String)
    (hk : pyFalsy api_key = false)
    (hr : svc image_bytes mime_type = .raised msg) :
    (identify_arabic_letter_from_bytes api_key svc image_bytes mime_type).1
      = "❌ فشل المعالجة" := by
  simp [identify_arabic_letter_from_bytes, hk, hr]

theorem exception_caught_at_adapter_witness :
    pyFalsy (some "k") = false ∧
    svc_raise [] "image/png" = .raised "network unreachable" ∧
    (identify_arabic_letter_from_bytes (some "k") svc_raise [] "image/png").1
      = "❌ فشل المعالجة" :=
  ⟨rfl, rfl,
    exception_caught_at_adapter (some "k") svc_raise [] "image/png"
      "network unreachable" rfl rfl⟩

/-- C7: the resolver is deterministic and side-effect-free: its
state-passing form leaves the file-system state unchanged, computes the
same result as the pure form, and a second call under the resulting
state returns the same result and state. -/
theorem resolver_deterministic_stateless (fs : FS) (letter : String) :
    (get_audio_filename_run fs letter).2 = fs ∧
    (get_audio_filename_run fs letter).1 = get_audio_filename fs letter ∧
    get_audio_filename_run ((get_audio_filename_run fs letter).2) letter
      = get_audio_filename_run fs letter := by
  have hpair : get_audio_filename_run fs letter = (get_audio_filename fs letter, fs) := by
    unfold get_audio_filename_run get_audio_filename get_audio_filename_with os_path_exists
    dsimp only
    split
    · split
      · split <;> rfl
      · rfl
    · rfl
  refine ⟨by rw [hpair], by rw [hpair], ?_⟩
  rw [hpair]
  exact hpair

/-- C3: the resolver is a total function (so it never raises), and it
returns the absent sentinel `none` exactly when the trimmed letter is
not a key of the mapping table or the mapped asset file does not exist
in the file-system state — the two cases are indistinguishable in the
result. -/
theorem resolver_none_iff (fs : FS) (letter : String) :
    get_audio_filename fs letter = none ↔
      (dictGet mapping_base_entries (pyStrip letter) = none ∨
       ∃ b, dictGet mapping_base_entries (pyStrip letter) = some b ∧
         fs (os_path_join AUDIO_FOLDER (b ++ ".mp4")) = false) := by
  unfold get_audio_filename get_audio_filename_with
  dsimp only
  cases h : dictGet mapping_base_entries (pyStrip letter) with
  | none => simp [h]
  | some b =>
    have hb : b ≠ "" := mapping_base_value_ne_empty _ _ h
    dsimp only
    rw [if_pos hb]
    cases hf : fs (os_path_join AUDIO_FOLDER (b ++ ".mp4")) <;> simp [h, hf]

/-- C4: the resolver trims surrounding whitespace before lookup (its
result depends only on the stripped input), and for the mapped letters
`"ب"` and `"ع"` with present assets it returns the asset-root-joined
paths `"sounds/baa.mp4"` and `"sounds/ain.mp4"` respectively. -/
theorem resolver_trims_and_scenarios (fs : FS) (s : String) :
    get_audio_filename fs s = get_audio_filename fs (pyStrip s) ∧
    (fs "sounds/baa.mp4" = true → get_audio_filename fs "ب" = some "sounds/baa.mp4") ∧
    (fs "sounds/ain.mp4" = true → get_audio_filename fs "ع" = some "sounds/ain.mp4") := by
  refine ⟨?_, ?_, ?_⟩
  · unfold get_audio_filename get_audio_filename_with
    rw [pyStrip_idem]
  · intro h
    unfold get_audio_filename get_audio_filename_with
    dsimp only
    rw [show dictGet mapping_base_entries (pyStrip "ب") = some "baa" from by decide]
    dsimp only
    rw [if_pos (by decide : ("baa" : String) ≠ "")]
    rw [show os_path_join AUDIO_FOLDER ("baa" ++ ".mp4") = "sounds/baa.mp4" from by decide]
    rw [h]
    rfl
  · intro h
    unfold get_audio_filename get_audio_filename_with
    dsimp only
    rw [show dictGet mapping_base_entries (pyStrip "ع") = some "ain" from by decide]
    dsimp only
    rw [if_pos (by decide : ("ain" : String) ≠ "")]
    rw [show os_path_join AUDIO_FOLDER ("ain" ++ ".mp4") = "sounds/ain.mp4" from by decide]
    rw [h]
    rfl

theorem resolver_trims_and_scenarios_witness :
    get_audio_filename fs_demo " ب " = get_audio_filename fs_demo (pyStrip " ب ") ∧
    get_audio_filename fs_demo "ب" = some "sounds/baa.mp4" ∧
    get_audio_filename fs_demo "ع" = some "sounds/ain.mp4" :=
  ⟨(resolver_trims_and_scenarios fs_demo " ب ").1,
   (resolver_trims_and_scenarios fs_demo " ب ").2.1 (by decide),
   (resolver_trims_and_scenarios fs_demo " ب ").2.2 (by decide)⟩

/-- C5 (counterexample): the mapping table does not have 34 distinct
keys — its key list deduplicates to a different cardinality. -/
theorem mapping_base_not_34_keys :
    ¬ (mapping_base_entries.map Prod.fst).dedup.length = 34 := by decide

/-- C5 (amended): the mapping table has exactly 36 distinct Arabic
letter keys, and correspondingly 36 distinct base file names. -/
theorem mapping_base_36_distinct_keys :
    (mapping_base_entries.map Prod.fst).dedup.length = 36 ∧
    (mapping_base_entries.map Prod.snd).dedup.length = 36 := by decide

/-- C6: on a completed call the adapter returns the service's response
text with surrounding whitespace trimmed, performing no check against
the letter whitelist; and for any string whose trimmed form is not a
mapping key — in particular the empty string and multi-character text —
the resolver returns the absent sentinel rather than raising. -/
theorem adapter_returns_trimmed_unchecked
    (api_key : Option String) (svc : List Nat → String → ServiceOutcome)
    (image_bytes : List Nat) (mime_type t : String) (fs : FS) (s : String)
    (hk : pyFalsy api_key = false)
    (ht : svc image_bytes mime_type = .returned (some t)) :
    (identify_arabic_letter_from_bytes api_key svc image_bytes mime_type).1 = pyStrip t ∧
    (dictGet mapping_base_entries (pyStrip s) = none → get_audio_filename fs s = none) ∧
    get_audio_filename fs "" = none ∧
    get_audio_filename fs "اب" = none := by
  refine ⟨?_, ?_, ?_, ?_⟩
  · simp [identify_arabic_letter_from_bytes, hk, ht]
  · intro hnone
    unfold get_audio_filename get_audio_filename_with
    dsimp only
    rw [hnone]
  · unfold get_audio_filename get_audio_filename_with
    dsimp only
    rw [show dictGet mapping_base_entries (pyStrip "") = none from by decide]
  · unfold get_audio_filename get_audio_filename_with
    dsimp only
    rw [show dictGet mapping_base_entries (pyStrip "اب") = none from by decide]

theorem adapter_returns_trimmed_unchecked_witness :
    (identify_arabic_letter_from_bytes (some "k") (svc_text " ب ") [] "image/png").1
      = pyStrip " ب " ∧
    get_audio_filename fs_demo "" = none :=
  ⟨(adapter_returns_trimmed_unchecked (some "k") (svc_text " ب ") [] "image/png"
      " ب " fs_demo "" rfl rfl).1,
   (adapter_returns_trimmed_unchecked (some "k") (svc_text " ب ") [] "image/png"
      " ب " fs_demo "" rfl rfl).2.2.1⟩

/-- C8: the four re-assignments of the "robust matching" block are dead:
the dictionary built from all bindings agrees with the one built from
the main block alone on every key, and the resolver behaves identically
under either table. -/
theorem robust_block_dead (k : String) (fs : FS) (s : String) :
    dictGet mapping_base_entries k = dictGet mapping_main_entries k ∧
    get_audio_filename fs s = get_audio_filename_with mapping_main_entries fs s := by
  have hall : ∀ x, dictGet mapping_base_entries x = dictGet mapping_main_entries x := by
    intro x
    rw [show mapping_base_entries = mapping_main_entries ++ mapping_robust_entries from rfl]
    rw [dictGet_append]
    by_cases h1 : x = "أ"
    · subst h1; decide
    by_cases h2 : x = "إ"
    · subst h2; decide
    by_cases h3 : x = "ي"
    · subst h3; decide
    by_cases h4 : x = "ئ"
    · subst h4; decide
    have hr : dictGet mapping_robust_entries x = none := by
      simp [mapping_robust_entries, dictGet, h1, h2, h3, h4]
    rw [hr]
  refine ⟨hall k, ?_⟩
  unfold get_audio_filename get_audio_filename_with
  dsimp only
  rw [hall (pyStrip s)]

/-- C9: every successful resolution is rooted at the configured asset
folder and carries the fixed `.mp4` extension: a `some` result of the
resolver is `os_path_join AUDIO_FOLDER (b ++ ".mp4")` for the base name
`b` that the mapping table assigns to the trimmed input. -/
theorem resolver_success_shape (fs : FS) (s p : String)
    (h : get_audio_filename fs s = some p) :
    ∃ b, (pyStrip s, b) ∈ mapping_base_entries ∧
      dictGet mapping_base_entries (pyStrip s) = some b ∧
      p = os_path_join AUDIO_FOLDER (b ++ ".mp4") := by
  unfold get_audio_filename get_audio_filename_with at h
  dsimp only at h
  cases hd : dictGet mapping_base_entries (pyStrip s) with
  | none =>
    rw [hd] at h
    exact absurd h (by simp)
  | some b =>
    rw [hd] at h
    dsimp only at h
    rw [if_pos (mapping_base_value_ne_empty _ _ hd)] at h
    split at h
    · exact ⟨b, dictGet_mem _ _ _ hd, rfl, (Option.some_inj.mp h).symm⟩
    · exact absurd h (by simp)

theorem resolver_success_shape_witness :
    ∃ b, (pyStrip "ب", b) ∈ mapping_base_entries ∧
      dictGet mapping_base_entries (pyStrip "ب") = some b ∧
      "sounds/baa.mp4" = os_path_join AUDIO_FOLDER (b ++ ".mp4") :=
  resolver_success_shape fs_demo "ب" "sounds/baa.mp4" (by decide)

/-- C10 (counterexample): the `startswith('❌')` test of the
presentation layer does not classify exactly the adapter's failure
returns as errors: when the service responds with the text `"❌"`, the
adapter's success-path return `"❌"` is classified as an error although
it equals neither failure sentinel. -/
theorem error_marker_test_overlaps_success :
    (identify_arabic_letter_from_bytes (some "key")
        (fun _ _ => .returned (some "❌")) [] "image/png").1 = "❌" ∧
    is_error_display "❌" = true ∧
    "❌" ≠ "❌ فشل الاتصال" ∧ "❌" ≠ "❌ فشل المعالجة" := by decide

/-- C10 (amended): the adapter's only two failure returns are
`"❌ فشل الاتصال"` and `"❌ فشل المعالجة"`; both begin with `'❌'` and
neither (even after trimming) is a key of the mapping table, so the
presentation layer's test accepts every failure return; it rejects a
success return whenever the trimmed response text does not itself begin
with `'❌'` — exactness of the classification holds only under that
proviso. -/
theorem error_marker_classification
    (api_key : Option String) (svc : List Nat → String → ServiceOutcome)
    (image_bytes : List Nat) (mime_type : String) :
    (is_error_display "❌ فشل الاتصال" = true ∧
     is_error_display "❌ فشل المعالجة" = true) ∧
    (dictGet mapping_base_entries (pyStrip "❌ فشل الاتصال") = none ∧
     dictGet mapping_base_entries (pyStrip "❌ فشل المعالجة") = none) ∧
    (pyFalsy api_key = true →
      (identify_arabic_letter_from_bytes api_key svc image_bytes mime_type).1
        = "❌ فشل الاتصال") ∧
    (pyFalsy api_key = false → ∀ msg, svc image_bytes mime_type = .raised msg →
      (identify_arabic_letter_from_bytes api_key svc image_bytes mime_type).1
        = "❌ فشل المعالجة") ∧
    (pyFalsy api_key = false → svc image_bytes mime_type = .returned none →
      (identify_arabic_letter_from_bytes api_key svc image_bytes mime_type).1
        = "❌ فشل المعالجة") ∧
    (pyFalsy api_key = false → ∀ t, svc image_bytes mime_type = .returned (some t) →
      (identify_arabic_letter_from_bytes api_key svc image_bytes mime_type).1
        = pyStrip t ∧
      (pyStartswith (pyStrip t) "❌" = false →
        is_error_display
          (identify_arabic_letter_from_bytes api_key svc image_bytes mime_type).1
          = false)) := by
  refine ⟨by decide, by decide, ?_, ?_, ?_, ?_⟩
  · intro h
    simp [identify_arabic_letter_from_bytes, h]
  · intro h msg hr
    simp [identify_arabic_letter_from_bytes, h, hr]
  · intro h hr
    simp [identify_arabic_letter_from_bytes, h, hr]
  · intro h t hr
    refine ⟨by simp [identify_arabic_letter_from_bytes, h, hr], ?_⟩
    intro hp
    simp [identify_arabic_letter_from_bytes, h, hr, is_error_display, hp]

theorem error_marker_classification_witness :
    (identify_arabic_letter_from_bytes (some "k") svc_raise [] "image/png").1
      = "❌ فشل المعالجة" :=
  (error_marker_classification (some "k") svc_raise [] "image/png").2.2.2.1 rfl
    "network unreachable" rfl
